import Mathlib

/-!
Shallow embedding of `src/simple_kb.py` (the local knowledge-base index of
the warrantyCrew repository): chunker, vector store, persistence, change
detector and index-manager orchestration, together with theorems settling
the specification claims about them.

Conventions:
* Python exceptions are modelled by `PyErr`; a Python function that can
  raise returns `Except PyErr _`.
* `numpy` float32 matrices are modelled as `List (List ℚ)`; the claims
  settled here depend only on control flow and on list shapes, never on
  floating-point rounding, so exact rationals are adequate.
* Attribute accesses that can fail (`self.load()` on a class with no
  `load`, `os.stats` on a module with no `stats`) are modelled by a lookup
  in the list of names the class/module actually defines, exactly as
  Python's attribute resolution would.
-/

namespace WarrantyKB

/-- Python exception values that the code in `simple_kb.py` can raise. -/
inductive PyErr where
  | attributeError (attr : String)
  | typeError (kw : String)
  | fileNotFoundError
  | valueError (msg : String)
  | providerError (msg : String)
deriving DecidableEq

/-- Chunk record, `simple_kb.py` lines 20-25 (`@dataclass class KBChunk`). -/
structure KBChunk where
  text : String
  source : String
  page : Option Int
  sha : String
deriving DecidableEq

/-- One metadata record as built by `reindex` (lines 99-104):
a dict with keys `source`, `page`, `sha`, `text`. -/
structure Meta where
  source : String
  page : Option Int
  sha : String
  text : String
deriving DecidableEq

/-- The mutable in-memory state of `SimpleKB`: `self.vectors`
(`Optional[np.ndarray]`, line 32) and `self.meta` (line 33). -/
structure KBState where
  vectors : Option (List (List ℚ))
  meta : List Meta
deriving DecidableEq

/-- The state right after `__init__` lines 32-33: `vectors = None`, `meta = []`. -/
def emptyKB : KBState := { vectors := none, meta := [] }

/-- One search hit as the (unreachable) tail of `search` would build it
(lines 76-83): a `{page_content, metadata}` dict with a `score` field. -/
structure Hit where
  page_content : String
  source : String
  page : Option Int
  sha : String
  score : ℚ
deriving DecidableEq

/-- The two persisted artifacts: `kb_vectors.npy` (`index_fp`, line 34) and
`kb_meta.json` (`meta_fp`, line 35). `none` means the file is absent. -/
structure FS where
  vecFile : Option (List (List ℚ))
  metaFile : Option (List Meta)
deriving DecidableEq

/-- One file under the document root as `_docs_digest` walks it:
relative path, byte size, integer mtime (line 214). -/
structure FileEntry where
  relpath : String
  size : Nat
  mtime : Int
deriving DecidableEq

/-- `CHUNK_TOKENS`, line 14 (default of `KB_CHUNK_TOKENS`). -/
def CHUNK_TOKENS : Nat := 500

/-- `CHUNK_OVERLAP_TOKENS`, line 15 (default of `KB_CHUNK_OVERLAP`). -/
def CHUNK_OVERLAP_TOKENS : Nat := 60

/-- Embedding batch size `B = 64`, line 130. -/
def EMBED_BATCH : Nat := 64

/-- Number of elements of Python's `range(0, stop, step)`: `⌈stop/step⌉`. -/
def pyRangeLen (stop step : Nat) : Nat := (stop + step - 1) / step

/-- Python's `range(0, stop, step)` as the list `[0, step, 2*step, ...)`,
every element `< stop`. -/
def pyRange (stop step : Nat) : List Nat := List.range' 0 (pyRangeLen stop step) step

/-- Loop body of `_chunk_text` (lines 148-151): for each start offset,
take the window `toks[i : i + CHUNK_TOKENS]`, stop (`break`) if it is
empty, otherwise decode it and continue. -/
def chunkLoop (decode : List Nat → String) (toks : List Nat) : List Nat → List String
  | [] => []
  | i :: rest =>
    let window := (toks.drop i).take CHUNK_TOKENS
    if window.isEmpty then [] else decode window :: chunkLoop decode toks rest

/-- `_chunk_text` (lines 144-152): encode the text, set
`step = max(1, CHUNK_TOKENS - CHUNK_OVERLAP_TOKENS)`, then run the window
loop over `range(0, len(toks), step)`. The tokenizer is abstracted as an
`encode`/`decode` pair. -/
def chunk_text (encode : String → List Nat) (decode : List Nat → String)
    (text : String) : List String :=
  let toks := encode text
  let step := max 1 (CHUNK_TOKENS - CHUNK_OVERLAP_TOKENS)
  chunkLoop decode toks (pyRange toks.length step)

/-- Helper for Python's substring test: is `a` a leading segment of `b`? -/
def listStartsWith : List Char → List Char → Bool
  | [], _ => true
  | _ :: _, [] => false
  | a :: as, b :: bs => a == b && listStartsWith as bs

/-- Helper for Python's substring test: does `a` occur contiguously in `b`? -/
def listHasSub (a : List Char) : List Char → Bool
  | [] => a.isEmpty
  | b :: bs => listStartsWith a (b :: bs) || listHasSub a bs

/-- Python's `a in b` on strings: `a` is a (possibly empty) substring of `b`. -/
def pyInStr (a b : String) : Bool := listHasSub a.data b.data

/-- Which extractor `_load_all_chunks` hands a file to. `docxBody` is the
dedicated DOCX extractor `_docx_chunks` (lines 184-190); note that the
dispatch below never selects it. -/
inductive Handler where
  | pdfPages
  | docxBody
  | plainText
  | skipped
deriving DecidableEq

/-- The per-file dispatch of `_load_all_chunks` (lines 159-166) on
`ext = os.path.splitext(fn.lower())[1]`:
`if ext == ".pdf": self._pdf_chunks(fpath)`,
`elif ext == ".docx": self._pdf_chunks(fpath)` (line 164 really calls the
PDF extractor), `elif ext in (".txt")` — `(".txt")` is a plain string, so
this is Python's substring test — `: self._text_chunks(fpath)`. -/
def dispatchExt (ext : String) : Handler :=
  if ext == ".pdf" then .pdfPages
  else if ext == ".docx" then .pdfPages
  else if pyInStr ext ".txt" then .plainText
  else .skipped

/-- `search` (lines 69-84). The guard `if self.vectors is None or not
len(self.meta): return []` is lines 71-72; lines 73-84 (embed the query,
cosine similarities, argsort, build the hit dicts) are indented INSIDE that
branch, after its `return []`, so they can never execute. For a non-empty
index the `if` is false, the function body is over, and Python returns
`None` — modelled as `Option.none`; a returned list `l` is `some l`. -/
def search (kb : KBState) (query : String) (k : Nat) : Option (List Hit) :=
  if kb.vectors.isNone || kb.meta.isEmpty then some [] else none

/-- The keyword parameters Python's builtin `open` accepts. -/
def openKwNames : List String :=
  ["mode", "buffering", "encoding", "errors", "newline", "closefd", "opener"]

/-- Keyword-argument validation of a call to `open`: an unknown keyword
raises `TypeError`. -/
def openCheck (kwargs : List String) : Except PyErr Unit :=
  match kwargs.find? (fun kw => !(openKwNames.contains kw)) with
  | some kw => .error (.typeError kw)
  | none => .ok ()

/-- `_save` (lines 109-117). First the vectors artifact: `np.save` when
`self.vectors is not None`, else `os.remove` with `FileNotFoundError`
swallowed. Then the metadata artifact: line 116 calls
`open(self.meta_fp, "w", encodings = "utf-8")` — `encodings` (with an s)
is not a keyword `open` accepts, so the call raises `TypeError` and the
metadata file is never written. Returns the filesystem after the partial
write together with the outcome. -/
def save (st : KBState) (fs : FS) : FS × Except PyErr Unit :=
  let fs1 := match st.vectors with
    | some v => { fs with vecFile := some v }
    | none => { fs with vecFile := none }
  match openCheck ["encodings"] with
  | .error e => (fs1, .error e)
  | .ok _ => ({ fs1 with metaFile := some st.meta }, .ok ())

/-- `_load` (lines 119-125): read the vectors artifact (`np.load`), then
the metadata artifact (`json.load`); `except Exception` resets both to the
empty state. `readVec`/`readMeta` are the outcomes of the two reads, where
`.error` covers a missing, unreadable or unparsable artifact. (If the
vectors read succeeds but the metadata read fails, Python assigns
`self.vectors` and then the handler resets both — same net result.) -/
def load (readVec : Except PyErr (List (List ℚ)))
    (readMeta : Except PyErr (List Meta)) : KBState :=
  match readVec, readMeta with
  | .ok v, .ok m => { vectors := some v, meta := m }
  | _, _ => emptyKB

/-- `np.vstack` on a list of blocks: raises `ValueError` on an empty list,
otherwise concatenates the rows. -/
def npVstack (blocks : List (List (List ℚ))) : Except PyErr (List (List ℚ)) :=
  if blocks.isEmpty then .error (.valueError "need at least one array to concatenate")
  else .ok blocks.flatten

/-- Batch loop of `_embed_texts` (lines 131-135): for each batch start `i`,
call the provider on `texts[i : i + B]`, vstack the returned row vectors,
and collect the per-batch blocks in order. A provider error aborts the
whole pass. -/
def embedLoop (provider : List String → Except PyErr (List (List ℚ)))
    (texts : List String) : List Nat → Except PyErr (List (List (List ℚ)))
  | [] => .ok []
  | i :: rest => do
    let batch := (texts.drop i).take EMBED_BATCH
    let vecs ← provider batch
    let block ← npVstack (vecs.map (fun v => [v]))
    let out ← embedLoop provider texts rest
    pure (block :: out)

/-- `_embed_texts` (lines 128-136): run the batch loop over
`range(0, len(texts), B)` and vstack the collected blocks. The external
embedding provider (`client.embeddings.create`) is abstracted as
`provider`, returning the list of row vectors of a batch or an error. -/
def embed_texts (provider : List String → Except PyErr (List (List ℚ)))
    (texts : List String) : Except PyErr (List (List ℚ)) := do
  let out ← embedLoop provider texts (pyRange texts.length EMBED_BATCH)
  npVstack out

/-- `arr.shape[1]` of a row-major matrix. -/
def npDim (m : List (List ℚ)) : Nat := ((m.head?).map List.length).getD 0

/-- `reindex` (lines 87-107). `chunks` abstracts `_load_all_chunks(DOCS_DIR)`.
If there are no chunks: clear the in-memory index, `_save()`, return
`(0, 0)` — but `_save` raises first, so the exception propagates.
Otherwise: embed the chunk texts (any provider error propagates BEFORE
`self.vectors`/`self.meta` are reassigned), publish the new index, then
`_save()` (which again raises after `np.save` wrote the vectors file).
Result: the in-memory state after the call, the filesystem after the call,
and the returned pair or the raised exception. -/
def reindex (chunks : List KBChunk)
    (provider : List String → Except PyErr (List (List ℚ)))
    (st : KBState) (fs : FS) : KBState × FS × Except PyErr (Nat × Nat) :=
  if chunks.isEmpty then
    let st1 := emptyKB
    let (fs1, r) := save st1 fs
    match r with
    | .error e => (st1, fs1, .error e)
    | .ok _ => (st1, fs1, .ok (0, 0))
  else
    let texts := chunks.map (·.text)
    match embed_texts provider texts with
    | .error e => (st, fs, .error e)
    | .ok vecs =>
      let st1 : KBState :=
        { vectors := some vecs,
          meta := chunks.map (fun c =>
            { source := c.source, page := c.page, sha := c.sha, text := c.text }) }
      let (fs1, r) := save st1 fs
      match r with
      | .error e => (st1, fs1, .error e)
      | .ok _ => (st1, fs1, .ok (chunks.length, npDim vecs))

/-- The method names the class body of `SimpleKB` defines
(lines 29-229). There is a `_load`, but no `load`. -/
def SimpleKBdefs : List String :=
  ["__init__", "search", "reindex", "_save", "_load", "_embed_texts",
   "_cosine_sim", "_chunk_text", "_load_all_chunks", "_pdf_chunks",
   "_docx_chunks", "_text_chunks", "_docs_digest", "_load_saved_digest",
   "_save_digest"]

/-- Python attribute resolution on a `SimpleKB` instance: a name the class
does not define raises `AttributeError`. -/
def getattrKB (name : String) : Except PyErr Unit :=
  if SimpleKBdefs.contains name then .ok () else .error (.attributeError name)

/-- The first statement of `__init__` after the field initialisers:
line 37 is `self.load()`. Everything from line 39 on (digest computation,
startup reindex, change detection) runs only if this resolves. -/
def initFirstStatement : Except PyErr Unit := getattrKB "load"

/-- The attributes of Python's `os` module that `simple_kb.py` touches or
could touch; `os` defines `stat`, not `stats`. -/
def osAttrs : List String :=
  ["walk", "path", "stat", "getenv", "makedirs", "remove", "environ"]

/-- Attribute resolution on the `os` module. -/
def getattrOS (name : String) : Except PyErr Unit :=
  if osAttrs.contains name then .ok () else .error (.attributeError name)

/-- Per-file body of `_docs_digest` (lines 208-214): line 210 is
`st = os.stats(fpath)` — attribute lookup of `stats` on `os` — inside a
`try` whose only handler is `except FileNotFoundError: continue`; on
success the item string `f"{rel}|{st.st_size}|{int(st.st_mtime)}"` is
collected. Any exception other than `FileNotFoundError` propagates. -/
def digestItems : List FileEntry → Except PyErr (List String)
  | [] => .ok []
  | f :: rest =>
    match getattrOS "stats" with
    | .error .fileNotFoundError => digestItems rest
    | .error e => .error e
    | .ok _ => do
      let r ← digestItems rest
      pure ((f.relpath ++ "|" ++ toString f.size ++ "|" ++ toString f.mtime) :: r)

/-- `_docs_digest` (lines 203-216): collect one item per file, join with
newlines, hash. The hash function (`hashlib.sha1(...).hexdigest()`) is
abstracted as `sha1`; `files` is the walk of the root. -/
def docs_digest (sha1 : String → String) (files : List FileEntry) :
    Except PyErr String := do
  let items ← digestItems files
  pure (sha1 (String.intercalate "\n" items))

/-- A concrete metadata record, for concretising claims. -/
def metaOne : Meta := { source := "docs/a.txt", page := none, sha := "s0", text := "hello" }

/-- A concrete non-empty index state: one stored vector, one record. -/
def kbOne : KBState := { vectors := some [[1, 0]], meta := [metaOne] }

/-- A concrete chunk, for concretising claims. -/
def chunkOne : KBChunk := { text := "hello", source := "docs/a.txt", page := none, sha := "s0" }

/-- A concrete filesystem snapshot holding a persisted one-row index. -/
def fsOne : FS := { vecFile := some [[1, 0]], metaFile := some [metaOne] }

/-- A concrete tokenizer encode: every text tokenizes to 1000 tokens. -/
def encA : String → List Nat := fun _ => List.range 1000

/-- A concrete tokenizer decode: render the token count. -/
def decA : List Nat → String := fun l => toString l.length

/-- A concrete two-row vectors artifact, used to exhibit a length mismatch
with a one-record metadata artifact. -/
def vecsTwo : List (List ℚ) := [[1], [2]]

/-- A concrete embedding provider that fails on every batch. -/
def failProvider : List String → Except PyErr (List (List ℚ)) :=
  fun _ => Except.error (PyErr.providerError "boom")

/-- Helper: the `open` call of `_save` line 116 always raises `TypeError`,
because `encodings` is not a keyword `open` accepts. -/
theorem openCheck_encodings :
    openCheck ["encodings"] = Except.error (PyErr.typeError "encodings") := rfl

/-- Helper: every element of `pyRange stop step` is `< stop` (Python's
`range(0, stop, step)` never reaches `stop`). -/
theorem mem_pyRange_lt {stop step m : Nat} (hstep : 0 < step)
    (hm : m ∈ pyRange stop step) : m < stop := by
  rcases List.mem_range'.1 hm with ⟨i, hi, hmi⟩
  have h6 : m = step * i := by simpa using hmi
  have h3 : pyRangeLen stop step * step ≤ stop + step - 1 := Nat.div_mul_le_self _ _
  have h2 : (i + 1) * step ≤ pyRangeLen stop step * step :=
    Nat.mul_le_mul hi (le_refl step)
  have h5 : i * step + step ≤ stop + step - 1 := by
    calc i * step + step = (i + 1) * step := (Nat.succ_mul i step).symm
    _ ≤ stop + step - 1 := h2.trans h3
  rcases Nat.eq_zero_or_pos stop with h0 | h0
  · exfalso
    have hlen : pyRangeLen stop step = 0 := by
      subst h0
      exact Nat.div_eq_of_lt (by omega)
    omega
  · rw [h6, Nat.mul_comm]
    generalize hgen : i * step = a at h5 ⊢
    omega

/-- Helper: when every start offset is inside the token list, the window
loop of `_chunk_text` never hits its `break` and emits exactly one decoded
window per offset. -/
theorem chunkLoop_eq_map (decode : List Nat → String) (toks : List Nat)
    (idxs : List Nat) (h : ∀ i ∈ idxs, i < toks.length) :
    chunkLoop decode toks idxs
      = idxs.map (fun i => decode ((toks.drop i).take CHUNK_TOKENS)) := by
  induction idxs with
  | nil => rfl
  | cons i rest ih =>
    have hi : i < toks.length := h i (List.mem_cons_self i rest)
    have hw : ((toks.drop i).take CHUNK_TOKENS).isEmpty = false := by
      rw [List.isEmpty_eq_false]
      intro hnil
      rcases List.take_eq_nil_iff.1 hnil with h500 | hdrop
      · simp [CHUNK_TOKENS] at h500
      · have := List.drop_eq_nil_iff.1 hdrop
        omega
    simp only [chunkLoop, hw, Bool.false_eq_true, if_false, List.map_cons]
    rw [ih (fun j hj => h j (List.mem_cons_of_mem i hj))]

/-- Helper: `_chunk_text` equals the window map over `range(0, N, 440)`. -/
theorem chunk_text_eq (encode : String → List Nat) (decode : List Nat → String)
    (text : String) :
    chunk_text encode decode text
      = (pyRange (encode text).length 440).map
          (fun i => decode (((encode text).drop i).take CHUNK_TOKENS)) := by
  unfold chunk_text
  have hstep : max 1 (CHUNK_TOKENS - CHUNK_OVERLAP_TOKENS) = 440 := by decide
  rw [hstep]
  exact chunkLoop_eq_map decode (encode text) _
    (fun i hi => mem_pyRange_lt (by omega) hi)

/-- C2: for every tokenizer and every text whose tokenization has length
`N > 0`, `_chunk_text` with `T = 500`, `O = 60` emits one window per start
offset `i = 0, 440, 880, ...` while `i < N` (stride `max(1, T - O) = 440`),
each window being tokens `[i, min(i + 500, N))` decoded back to text; a
text of exactly 1000 tokens yields exactly 3 chunks at token offsets
0, 440, 880, the third having 120 tokens. -/
theorem C2_chunk_windows (encode : String → List Nat) (decode : List Nat → String)
    (text : String) (hN : 0 < (encode text).length) :
    chunk_text encode decode text
      = (pyRange (encode text).length 440).map
          (fun i => decode (((encode text).drop i).take 500))
    ∧ max 1 (CHUNK_TOKENS - CHUNK_OVERLAP_TOKENS) = 440
    ∧ ((encode text).length = 1000 →
        pyRange (encode text).length 440 = [0, 440, 880]
        ∧ chunk_text encode decode text
            = [decode ((encode text).take 500),
               decode (((encode text).drop 440).take 500),
               decode (((encode text).drop 880).take 500)]
        ∧ (((encode text).drop 880).take 500).length = 120) := by
  have hmain := chunk_text_eq encode decode text
  refine ⟨hmain, by decide, ?_⟩
  intro h1000
  have hpy : pyRange (encode text).length 440 = [0, 440, 880] := by
    rw [h1000]
    rfl
  refine ⟨hpy, ?_, ?_⟩
  · rw [hmain, hpy]
    simp [CHUNK_TOKENS]
  · rw [List.length_take, List.length_drop, h1000]
    decide

/-- Witness for C2: a tokenizer sending every text to 1000 tokens
satisfies `N > 0`, and its third window has 120 tokens. -/
theorem C2_chunk_windows_witness :
    0 < (encA "x").length
    ∧ (((encA "x").drop 880).take 500).length = 120 := by
  have h := C2_chunk_windows encA decA "x" (by simp [encA])
  exact ⟨by simp [encA], (h.2.2 (by simp [encA])).2.2⟩

/-- C1: the claim says that on a non-empty index `search(q, k)` embeds the
query, ranks by cosine similarity and returns at most `k` results. It does
not: the whole ranking block (lines 73-84) is indented inside the
empty-index branch after its `return []`, so it is unreachable, and for a
non-empty index — here the concrete one-entry index `kbOne` — `search`
falls off the end of its body and returns Python `None`, not a list. -/
theorem C1_search_dead_ranking :
    search kbOne "replace the filter" 5 = none
    ∧ kbOne.vectors.isSome = true
    ∧ kbOne.meta ≠ [] := by
  refine ⟨rfl, rfl, ?_⟩
  simp [kbOne]

/-- C3: the claim says construction first loads the persisted index and
then decides whether to reindex. The first statement of `__init__` after
the field initialisers (line 37) is `self.load()`, but the class defines
`_load`, not `load`, so attribute resolution raises `AttributeError` and
construction never reaches the load/digest/reindex logic of lines 39-67. -/
theorem C3_init_attribute_slip :
    initFirstStatement = Except.error (PyErr.attributeError "load")
    ∧ getattrKB "_load" = Except.ok () := by
  exact ⟨rfl, rfl⟩

/-- C4: the claim says `save()` followed by `load()` reproduces the index
bit-exactly. In fact `_save` always raises: line 116 calls
`open(self.meta_fp, "w", encodings = "utf-8")` and `encodings` is not a
keyword `open` accepts, so `TypeError` is raised and the metadata artifact
is never (re)written — the save half of the round trip never completes,
for every index state and every prior filesystem state. -/
theorem C4_save_always_raises (st : KBState) (fs : FS) :
    (save st fs).2 = Except.error (PyErr.typeError "encodings")
    ∧ ((save st fs).1).metaFile = fs.metaFile := by
  cases hv : st.vectors <;> simp [save, hv, openCheck_encodings]

/-- C5: the claim says every DOCX file is loaded as a single whole-body
unit with `page = null`. The dispatch of `_load_all_chunks` (line 164)
sends `.docx` files to `self._pdf_chunks` — the page-wise PDF extractor —
and never to the dedicated whole-body extractor `_docx_chunks`. -/
theorem C5_docx_routed_to_pdf :
    dispatchExt ".docx" = Handler.pdfPages
    ∧ Handler.pdfPages ≠ Handler.docxBody := by
  exact ⟨rfl, by decide⟩

/-- C6: the claim says an empty document root makes `reindex()` return
`(0, 0)`. The code does clear the in-memory index and a later `search`
does return `[]`, but the `self._save()` call on the cleared index raises
`TypeError` (the `encodings` keyword bug), so `reindex` raises instead of
returning `(0, 0)` — for every provider, prior state and filesystem. -/
theorem C6_reindex_empty_root
    (provider : List String → Except PyErr (List (List ℚ)))
    (st : KBState) (fs : FS) (q : String) (k : Nat) :
    (reindex [] provider st fs).2.2 = Except.error (PyErr.typeError "encodings")
    ∧ (reindex [] provider st fs).1 = emptyKB
    ∧ search (reindex [] provider st fs).1 q k = some [] := by
  exact ⟨rfl, rfl, rfl⟩

/-- C7: the claim says `digest(root)` returns a deterministic hash over
every file under the root. For any root containing at least one file the
very first loop iteration evaluates `os.stats(fpath)` (line 210) — the
`os` module has `stat`, not `stats` — raising `AttributeError`, which the
`except FileNotFoundError` handler does not catch, so the digest
computation raises instead of returning a hash. -/
theorem C7_digest_raises (sha1 : String → String) (f : FileEntry)
    (rest : List FileEntry) :
    docs_digest sha1 (f :: rest) = Except.error (PyErr.attributeError "stats") := rfl

/-- C8 counterexample: the claim says that when the two persisted
artifacts disagree in length, `load()` initializes the store to the empty
state. It does not: `_load` performs no length check, so a two-row vectors
artifact paired with a one-record metadata artifact is loaded as-is. -/
theorem C8_no_length_check_cex :
    load (Except.ok vecsTwo) (Except.ok [metaOne])
      = { vectors := some vecsTwo, meta := [metaOne] }
    ∧ vecsTwo.length = 2
    ∧ [metaOne].length = 1
    ∧ load (Except.ok vecsTwo) (Except.ok [metaOne]) ≠ emptyKB := by
  refine ⟨rfl, rfl, rfl, ?_⟩
  intro h
  have := congrArg KBState.vectors h
  simp [load, emptyKB] at this

/-- C8 amended: if either artifact is missing or unreadable, `load()`
initializes the store to the empty state (`vectors = none`, `meta = []`)
and does not raise; when both reads succeed their contents are taken
as-is, with no length-match check. -/
theorem C8_load_amended (readVec : Except PyErr (List (List ℚ)))
    (readMeta : Except PyErr (List Meta)) :
    (∀ e, readVec = Except.error e → load readVec readMeta = emptyKB)
    ∧ (∀ e, readMeta = Except.error e → load readVec readMeta = emptyKB)
    ∧ (∀ v m, readVec = Except.ok v → readMeta = Except.ok m →
        load readVec readMeta = { vectors := some v, meta := m }) := by
  refine ⟨?_, ?_, ?_⟩
  · intro e he
    subst he
    cases readMeta <;> rfl
  · intro e he
    subst he
    cases readVec <;> rfl
  · intro v m hv hm
    subst hv
    subst hm
    rfl

/-- Witness for C8: a missing vectors artifact yields the empty state. -/
theorem C8_load_amended_witness :
    load (Except.error PyErr.fileNotFoundError) (Except.ok [metaOne]) = emptyKB :=
  (C8_load_amended (Except.error PyErr.fileNotFoundError) (Except.ok [metaOne])).1
    PyErr.fileNotFoundError rfl

/-- C9: if the embedding step fails during a `reindex()` over a non-empty
chunk list, the error propagates out of `reindex` before `self.vectors` or
`self.meta` are reassigned and before anything is written: the in-memory
index and the persisted artifacts are exactly as before the call. -/
theorem C9_embed_failure_keeps_index (chunks : List KBChunk)
    (provider : List String → Except PyErr (List (List ℚ)))
    (st : KBState) (fs : FS) (e : PyErr)
    (hne : chunks ≠ [])
    (hfail : embed_texts provider (chunks.map (·.text)) = Except.error e) :
    reindex chunks provider st fs = (st, fs, Except.error e) := by
  have h1 : chunks.isEmpty = false := by simpa [List.isEmpty_eq_false] using hne
  simp [reindex, h1, hfail]

/-- Witness for C9: a provider that fails on every batch leaves the
concrete one-entry index `kbOne` and the persisted files untouched. -/
theorem C9_embed_failure_keeps_index_witness :
    reindex [chunkOne] failProvider kbOne fsOne
      = (kbOne, fsOne, Except.error (PyErr.providerError "boom")) :=
  C9_embed_failure_keeps_index [chunkOne] failProvider kbOne fsOne
    (PyErr.providerError "boom") (by simp) rfl

/-- C10: a file whose lowercased name has no extension (`splitext` yields
the empty string), and likewise extensions `.t` and `.tx`, is not skipped:
because line 165 tests `ext in (".txt")` — a substring test against the
plain string ".txt" — the dispatch hands such files to the plain-text
extractor `_text_chunks`, whose chunks are then indexed. -/
theorem C10_substring_ext_dispatch :
    dispatchExt "" = Handler.plainText
    ∧ dispatchExt ".t" = Handler.plainText
    ∧ dispatchExt ".tx" = Handler.plainText
    ∧ Handler.plainText ≠ Handler.skipped := by
  exact ⟨rfl, rfl, rfl, by decide⟩

end WarrantyKB
